import Mathlib

/-!
# Verification of the data-quality analysis core

A shallow embedding of the analysis engine of the Data-Analysis-Next.js
repository (`src/lib/dataAnalyzer.ts` and `src/lib/aiAnalyzer.ts`), together
with theorems settling the specification claims about it.

JavaScript runtime values are modelled by the inductive type `Value`
(finite numbers as exact rationals), and the handful of JS primitives the
source relies on (`Number(v)`, `parseFloat`, `Date.parse`, `String(v)`,
`Math.round`, `String.prototype.includes`) are modelled by executable Lean
functions over that type.  JS `NaN` produced by the zero-column division in
`calculateCompleteness` is modelled by `Option.none`.
-/

namespace DataAnalysis

/-- A JavaScript runtime value as it occurs in a parsed CSV/JSON dataset:
`null`, `undefined`, a string, a (finite) number, or a boolean.
Finite JS numbers are modelled as exact rationals. -/
inductive Value where
  | null : Value
  | undef : Value
  | str : String → Value
  | num : Rat → Value
  | bool : Bool → Value
deriving DecidableEq, Repr, Inhabited

/-- A JS object row: an insertion-ordered association list from column
name to value (JS object keys are unique and iterate in insertion order). -/
abbrev Row := List (String × Value)

/-- `row[k]` — the value bound to key `k`, or JS `undefined` when the key
is absent. -/
def rowGet (row : Row) (k : String) : Value :=
  match row.find? (fun kv => kv.1 == k) with
  | some kv => kv.2
  | none => Value.undef

/-! ## Models of the JS primitives used by the source -/

/-- The digit character for `d < 10` (used by the model of JS
number-to-string conversion). -/
def digitChar (d : Nat) : Char :=
  if d = 0 then '0' else if d = 1 then '1' else if d = 2 then '2'
  else if d = 3 then '3' else if d = 4 then '4' else if d = 5 then '5'
  else if d = 6 then '6' else if d = 7 then '7' else if d = 8 then '8'
  else if d = 9 then '9' else '*'

/-- Decimal digits of `n`, most significant first; `fuel`-structured so the
kernel can evaluate it (`fuel = n + 1` always suffices). -/
def natReprAux : Nat → Nat → List Char
  | 0, _ => []
  | fuel + 1, n =>
    if n < 10 then [digitChar n]
    else natReprAux fuel (n / 10) ++ [digitChar (n % 10)]

/-- Model of JS `String(n)` for a natural number. -/
def natRepr (n : Nat) : String := ⟨natReprAux (n + 1) n⟩

/-- Model of JS `String(i)` for an integer. -/
def intRepr (i : Int) : String :=
  if i < 0 then "-" ++ natRepr i.natAbs else natRepr i.toNat

/-- Fractional digits of a rational `0 ≤ q < 1`, by repeated
multiplication by 10 (`fuel`-bounded). -/
def fracDigits : Nat → Rat → List Char
  | 0, _ => []
  | fuel + 1, q =>
    if q = 0 then []
    else
      let q10 := q * 10
      digitChar q10.floor.toNat :: fracDigits fuel (q10 - q10.floor)

/-- Model of JS `String(x)` for a finite number: sign, integer digits and,
when the fractional part is nonzero, a decimal point and fraction digits.
(Exact on integers and on the short decimal fractions arising here; the JS
exponent notation for very large/small magnitudes is outside the modelled
fragment.) -/
def ratToJsStringNonneg (q : Rat) : String :=
  let ip : Nat := q.floor.toNat
  let fr : Rat := q - q.floor
  if fr = 0 then natRepr ip
  else natRepr ip ++ "." ++ ⟨fracDigits 40 fr⟩

def ratToJsString (q : Rat) : String :=
  if q < 0 then "-" ++ ratToJsStringNonneg (-q) else ratToJsStringNonneg q

/-- Model of JS `String(v)` (the `ToString` abstract operation / template
literal interpolation). -/
def valueToString : Value → String
  | Value.null => "null"
  | Value.undef => "undefined"
  | Value.str s => s
  | Value.num q => ratToJsString q
  | Value.bool true => "true"
  | Value.bool false => "false"

/-- JS whitespace characters stripped by `trim` / `Number` / `parseFloat`
(the ASCII fragment). -/
def jsWhitespace (c : Char) : Bool :=
  c == ' ' || c == '\t' || c == '\n' || c == '\r' || c == '\x0b' || c == '\x0c'

/-- Leading-whitespace strip on a character list. -/
def trimLeftChars (cs : List Char) : List Char := cs.dropWhile jsWhitespace

/-- Both-ends whitespace strip, as performed by JS `ToNumber` on strings. -/
def trimChars (cs : List Char) : List Char :=
  ((cs.dropWhile jsWhitespace).reverse.dropWhile jsWhitespace).reverse

/-- Model of `String.prototype.toLowerCase` (ASCII fragment). -/
def jsToLower (s : String) : String := ⟨s.data.map Char.toLower⟩

/-- Model of `String.prototype.includes pat` — substring occurrence. -/
def jsIncludes (s pat : String) : Bool := decide (pat.data <:+: s.data)

/-- Model of `String.prototype.endsWith post`. -/
def jsEndsWith (s post : String) : Bool := post.data.isSuffixOf s.data

/-- Numeric value of a decimal digit sequence, most significant first. -/
def decDigitsToNat (cs : List Char) : Nat :=
  cs.foldl (fun n c => 10 * n + (c.toNat - 48)) 0

/-- Value of a hexadecimal digit, for `0x` literals. -/
def hexDigitVal (c : Char) : Nat :=
  if c.isDigit then c.toNat - 48
  else if 'a' ≤ c && c ≤ 'f' then c.toNat - 97 + 10
  else if 'A' ≤ c && c ≤ 'F' then c.toNat - 65 + 10
  else 0

def isHexDigit (c : Char) : Bool :=
  c.isDigit || ('a' ≤ c && c ≤ 'f') || ('A' ≤ c && c ≤ 'F')

def isOctDigit (c : Char) : Bool := '0' ≤ c && c ≤ '7'

def isBinDigit (c : Char) : Bool := c == '0' || c == '1'

/-- `10 ^ e` as a rational, for a signed decimal exponent. -/
def ratPow10 (e : Int) : Rat :=
  if 0 ≤ e then ((10 : Rat) ^ e.toNat) else 1 / ((10 : Rat) ^ (-e).toNat)

/-- Parse a decimal exponent part (`[+|-] digits`, whole input), for the
model of JS `ToNumber`. -/
def parseExpPart (cs : List Char) : Option Int :=
  match cs with
  | '+' :: rest => if rest ≠ [] && rest.all Char.isDigit then some (decDigitsToNat rest) else none
  | '-' :: rest => if rest ≠ [] && rest.all Char.isDigit then some (-(decDigitsToNat rest : Int)) else none
  | _ => if cs ≠ [] && cs.all Char.isDigit then some (decDigitsToNat cs) else none

/-- The rational `ip.fp` given integer-part and fraction-part digit lists. -/
def decValue (ip fp : List Char) : Rat :=
  (decDigitsToNat ip : Rat) + (decDigitsToNat fp : Rat) / ((10 : Rat) ^ fp.length)

/-- Parse an unsigned JS decimal literal (`digits [. digits] [e exp]` or
`. digits [e exp]`), consuming the whole input; `none` models NaN. -/
def parseDecimal (cs : List Char) : Option Rat :=
  let ip := cs.takeWhile Char.isDigit
  let rest := cs.dropWhile Char.isDigit
  match rest with
  | [] => if ip = [] then none else some (decDigitsToNat ip)
  | '.' :: rest2 =>
    let fp := rest2.takeWhile Char.isDigit
    let rest3 := rest2.dropWhile Char.isDigit
    if ip = [] && fp = [] then none
    else
      match rest3 with
      | [] => some (decValue ip fp)
      | c :: rest4 =>
        if c == 'e' || c == 'E' then
          (parseExpPart rest4).map (fun ex => decValue ip fp * ratPow10 ex)
        else none
  | c :: rest4 =>
    if (c == 'e' || c == 'E') && ip ≠ [] then
      (parseExpPart rest4).map (fun ex => (decDigitsToNat ip : Rat) * ratPow10 ex)
    else none

/-- Parse an unsigned JS string-numeric literal after sign handling.
`"Infinity"` yields `none`: the model conflates non-finite results with
NaN, which is adequate because the source only consumes this value through
`Number.isInteger`, false on NaN and on infinities alike. -/
def parseUnsignedNumeric (cs : List Char) : Option Rat :=
  if cs = "Infinity".data then none else parseDecimal cs

/-- Model of JS `ToNumber` on a string (`Number(s)`): trim whitespace,
empty ⇒ 0, `0x`/`0o`/`0b` integer literals, else a signed decimal literal;
`none` models NaN (and, see `parseUnsignedNumeric`, infinities). -/
def jsStringToNumber (s : String) : Option Rat :=
  let t := trimChars s.data
  match t with
  | [] => some 0
  | '0' :: 'x' :: rest =>
    if rest ≠ [] && rest.all isHexDigit then
      some ((rest.foldl (fun n c => 16 * n + hexDigitVal c) 0 : Nat) : Rat)
    else none
  | '0' :: 'X' :: rest =>
    if rest ≠ [] && rest.all isHexDigit then
      some ((rest.foldl (fun n c => 16 * n + hexDigitVal c) 0 : Nat) : Rat)
    else none
  | '0' :: 'o' :: rest =>
    if rest ≠ [] && rest.all isOctDigit then
      some ((rest.foldl (fun n c => 8 * n + (c.toNat - 48)) 0 : Nat) : Rat)
    else none
  | '0' :: 'b' :: rest =>
    if rest ≠ [] && rest.all isBinDigit then
      some ((rest.foldl (fun n c => 2 * n + (c.toNat - 48)) 0 : Nat) : Rat)
    else none
  | '+' :: rest => parseUnsignedNumeric rest
  | '-' :: rest => (parseUnsignedNumeric rest).map Neg.neg
  | _ => parseUnsignedNumeric t

/-- Model of JS `Number(v)`; `none` models NaN (and infinities, see
`parseUnsignedNumeric`). -/
def jsNumberOfValue : Value → Option Rat
  | Value.null => some 0
  | Value.undef => none
  | Value.str s => jsStringToNumber s
  | Value.num q => some q
  | Value.bool b => some (if b then 1 else 0)

/-- Model of JS `Number.isInteger(Number(v))`: the conversion produced a
finite number with zero fractional part. -/
def numberIsInteger (v : Value) : Bool :=
  match jsNumberOfValue v with
  | some q => q.den == 1
  | none => false

/-- Whether a character list starts with a valid `parseFloat` prefix after
the optional sign: a digit, a dot followed by a digit, or `Infinity`. -/
def floatPrefixOk (cs : List Char) : Bool :=
  if "Infinity".data.isPrefixOf cs then true
  else
    match cs with
    | c :: _ => if c.isDigit then true else false
    | [] => false

def floatPrefixOkDot (cs : List Char) : Bool :=
  match cs with
  | '.' :: d :: _ => d.isDigit
  | _ => floatPrefixOk cs

/-- Model of JS `isNaN(parseFloat(s))`: `parseFloat` strips leading
whitespace and returns NaN exactly when the remainder does not begin with
an optional sign followed by a digit, a dot-digit, or `Infinity`. -/
def parseFloatNaN (s : String) : Bool :=
  match trimLeftChars s.data with
  | [] => true
  | '+' :: rest => !floatPrefixOkDot rest
  | '-' :: rest => !floatPrefixOkDot rest
  | cs => !floatPrefixOkDot cs

/-- Model of `!isNaN(Date.parse(s))` under the V8 date parser, restricted
to the input fragment arising in this development: the empty or
whitespace-only string does not parse; an all-digit string parses when it
is a four-digit ISO year or a one/two-digit month number 1–12; an ISO
`YYYY-MM-DD` string parses when month and day are in range; everything
else in the modelled fragment does not parse. -/
def dateParses (s : String) : Bool :=
  let t := trimChars s.data
  match t with
  | [] => false
  | cs =>
    if cs.all Char.isDigit then
      if cs.length == 4 then true
      else if cs.length ≤ 2 then
        let n := decDigitsToNat cs
        1 ≤ n && n ≤ 12
      else false
    else
      match cs with
      | [y1, y2, y3, y4, '-', m1, m2, '-', d1, d2] =>
        if [y1, y2, y3, y4, m1, m2, d1, d2].all Char.isDigit then
          let m := decDigitsToNat [m1, m2]
          let d := decDigitsToNat [d1, d2]
          1 ≤ m && m ≤ 12 && 1 ≤ d && d ≤ 31
        else false
      | _ => false

/-- Model of JS `Math.round` on a (finite) number: half-up rounding,
`Math.round(x) = ⌊x + 1/2⌋`. -/
def jsRound (q : Rat) : Int := ⌊q + 1 / 2⌋

/-! ## Dataset analyzer (`src/lib/dataAnalyzer.ts`) -/

/-- The inferred semantic type of a column
(`"text" | "integer" | "float" | "boolean" | "date"`). -/
inductive DataType where
  | text : DataType
  | integer : DataType
  | float : DataType
  | boolean : DataType
  | date : DataType
deriving DecidableEq, Repr, Inhabited

/-- Statistics for a single column (`interface ColumnStats`). -/
structure ColumnStats where
  name : String
  type : DataType
  totalRows : Nat
  nullCount : Nat
  nullPercentage : Int
  uniqueCount : Nat
  uniquePercentage : Int
  sampleValues : List Value
  issues : List String
deriving DecidableEq, Repr, Inhabited

/-- Complete analysis result (`interface DataAnalysisResult`).
`completeness` and `overallScore` are `Option Int` with `none` modelling
the JS `NaN` that `calculateCompleteness` produces by dividing by a zero
column count; all other fields are always finite. -/
structure DataAnalysisResult where
  fileName : String
  totalRows : Nat
  totalColumns : Nat
  columns : List ColumnStats
  dataPreview : List Row
  completeness : Option Int
  consistency : Int
  accuracy : Int
  validity : Int
  overallScore : Option Int
  summary : String
deriving DecidableEq, Repr, Inhabited

/-- The missing-value test used throughout `dataAnalyzer.ts`:
`v === null || v === undefined || v === ""` (and, equivalently, the
negation of the `v != null && v !== ""` filter). -/
def isMissing : Value → Bool
  | Value.null => true
  | Value.undef => true
  | Value.str s => s == ""
  | _ => false

/-- One boolean-token test of `inferDataType`:
`["true","false","yes","no","1","0"].includes(String(v).toLowerCase())`. -/
def isBooleanToken (v : Value) : Bool :=
  ["true", "false", "yes", "no", "1", "0"].contains (jsToLower (valueToString v))

/-- `DataAnalyzer.inferDataType`: filter the missing values out, then try
boolean, date, integer, float in order, returning the first whose
predicate holds of every remaining value, and `text` otherwise (also when
no values remain). -/
def inferDataType (values : List Value) : DataType :=
  let nonNullValues := values.filter (fun v => !isMissing v)
  if nonNullValues.isEmpty then DataType.text
  else if nonNullValues.all isBooleanToken then DataType.boolean
  else if nonNullValues.all (fun v => dateParses (valueToString v)) then DataType.date
  else if nonNullValues.all numberIsInteger then DataType.integer
  else if nonNullValues.all (fun v => !parseFloatNaN (valueToString v)) then DataType.float
  else DataType.text

/-- Insertion-ordered deduplication — the model of
`new Set(values.filter(...))`, whose iteration order is first-seen order. -/
def firstSeenDedup (l : List Value) : List Value :=
  l.foldl (fun acc v => if v ∈ acc then acc else acc ++ [v]) []

/-- `DataAnalyzer.detectIssues`: a "missing values" entry when any value
is missing, a "non-numeric values found" entry when the column is typed
integer/float yet some non-missing value fails `parseFloat`, and a
"duplicate values" entry when distinct non-missing values are fewer than
the non-missing values.  (The source's `columnName` parameter is unused
there as well.) -/
def detectIssues (columnName : String) (values : List Value) (dataType : DataType) :
    List String :=
  let nullCount := (values.filter isMissing).length
  let missingIssues :=
    if nullCount > 0 then
      [natRepr nullCount ++ " missing values (" ++
        intRepr (jsRound ((nullCount : Rat) / (values.length : Rat) * 100)) ++ "%)"]
    else []
  let typeIssues :=
    if dataType == DataType.integer || dataType == DataType.float then
      let typeMismatches :=
        (values.filter (fun v => !isMissing v && parseFloatNaN (valueToString v))).length
      if typeMismatches > 0 then [natRepr typeMismatches ++ " non-numeric values found"]
      else []
    else []
  let uniqueCount := (firstSeenDedup (values.filter (fun v => !isMissing v))).length
  let duplicateCount : Int := (values.length : Int) - nullCount - uniqueCount
  let dupIssues :=
    if duplicateCount > 0 then [intRepr duplicateCount ++ " duplicate values"] else []
  missingIssues ++ typeIssues ++ dupIssues

/-- `DataAnalyzer.analyzeColumn`: per-column counts, percentages, type,
issues and sample values. -/
def analyzeColumn (columnName : String) (values : List Value) : ColumnStats :=
  let nullCount := (values.filter isMissing).length
  let nullPercentage := jsRound ((nullCount : Rat) / (values.length : Rat) * 100)
  let uniqueValues := firstSeenDedup (values.filter (fun v => !isMissing v))
  let uniqueCount := uniqueValues.length
  let uniquePercentage := jsRound ((uniqueCount : Rat) / (values.length : Rat) * 100)
  let dataType := inferDataType values
  let issues := detectIssues columnName values dataType
  let sampleValues := uniqueValues.take 5
  { name := columnName
    type := dataType
    totalRows := values.length
    nullCount := nullCount
    nullPercentage := nullPercentage
    uniqueCount := uniqueCount
    uniquePercentage := uniquePercentage
    sampleValues := sampleValues
    issues := issues }

/-- `DataAnalyzer.calculateCompleteness`:
`Math.max(0, Math.round(100 - mean(nullPercentage)))`.  When `stats` is
empty the JS source divides `0 / 0`, giving `NaN`, which `Math.round` and
`Math.max` both propagate; that is modelled by `none`. -/
def calculateCompleteness (stats : List ColumnStats) : Option Int :=
  if stats.isEmpty then none
  else
    let totalNullPercentage : Rat :=
      (((stats.map ColumnStats.nullPercentage).sum : Int) : Rat) / (stats.length : Rat)
    some (max 0 (jsRound (100 - totalNullPercentage)))

/-- `DataAnalyzer.calculateConsistency`: start from 100, subtract 5 per
text-typed column, then subtract 5 per column having at least one issue,
clamping at 0.  (The source's `forEach` accumulation is translated as a
count.) -/
def calculateConsistency (stats : List ColumnStats) : Int :=
  let score : Int := 100 - 5 * ((stats.filter (fun c => c.type == DataType.text)).length : Int)
  max 0 (score - ((stats.filter (fun c => c.issues.length > 0)).length : Int) * 5)

/-- `DataAnalyzer.calculateAccuracy`: subtract 10 per issue string
containing `"non-numeric"`, clamping at 0. -/
def calculateAccuracy (stats : List ColumnStats) : Int :=
  max 0 (100 - 10 *
    ((stats.map (fun col => ((col.issues.filter (fun i => jsIncludes i "non-numeric")).length : Int))).sum))

/-- `DataAnalyzer.calculateValidity`: subtract 10 per text-typed column
with `uniquePercentage < 80`, clamping at 0. -/
def calculateValidity (stats : List ColumnStats) : Int :=
  max 0 (100 - 10 *
    ((stats.filter (fun c => c.type == DataType.text && c.uniquePercentage < 80)).length : Int))

/-- `DataAnalyzer.generateSummary`. -/
def generateSummary (rows : Nat) (columns : Nat) (stats : List ColumnStats) : String :=
  let issueCount := (stats.map (fun col => col.issues.length)).sum
  "Dataset with " ++ natRepr rows ++ " rows and " ++ natRepr columns ++
    " columns. Found " ++ natRepr issueCount ++ " data quality issues."

/-- `DataAnalyzer.analyzeData`: fails with the `"No data found in file"`
error exactly when `data` is empty; otherwise profiles each column named
by a key of the first record and assembles the scores.  `overallScore`
rounds the mean of the four scores; it is `none` (JS `NaN`) exactly when
`completeness` is, since JS addition and `Math.round` propagate `NaN`. -/
def analyzeData (data : List Row) (fileName : String) : Except String DataAnalysisResult :=
  if data.isEmpty then Except.error "No data found in file"
  else
    let columns := (data.headD []).map Prod.fst
    let totalRows := data.length
    let totalColumns := columns.length
    let columnStats := columns.map
      (fun colName => analyzeColumn colName (data.map (fun row => rowGet row colName)))
    let completeness := calculateCompleteness columnStats
    let consistency := calculateConsistency columnStats
    let accuracy := calculateAccuracy columnStats
    let validity := calculateValidity columnStats
    let overallScore := completeness.map
      (fun c => jsRound (((c + consistency + accuracy + validity : Int) : Rat) / 4))
    let dataPreview := data.take 5
    Except.ok
      { fileName := fileName
        totalRows := totalRows
        totalColumns := totalColumns
        columns := columnStats
        dataPreview := dataPreview
        completeness := completeness
        consistency := consistency
        accuracy := accuracy
        validity := validity
        overallScore := overallScore
        summary := generateSummary totalRows totalColumns columnStats }

/-! ## Recommendation engine (`src/lib/aiAnalyzer.ts`) -/

/-- Recommendation priority (`"High" | "Medium" | "Low"`). -/
inductive Priority where
  | high : Priority
  | medium : Priority
  | low : Priority
deriving DecidableEq, Repr, Inhabited

/-- An AI-generated or rule-based recommendation (`interface AIInsight`). -/
structure AIInsight where
  priority : Priority
  issue : String
  suggestion : String
  sqlFix : Option String := none
  userId : Option Value := none
  affectedColumns : Option (List String) := none
deriving DecidableEq, Repr, Inhabited

/-- The record-level missing-marker test of `extractUserSpecificIssues`:
`value === null || value === undefined || value === "" || value === "-"`. -/
def isRecordMissing (v : Value) : Bool :=
  isMissing v || v == Value.str "-"

/-- The id-column search of `AIAnalyzer.extractUserSpecificIssues`: the
first column whose lowercased name is `"id"` or ends with `"_id"`. -/
def findIdColumn (analysis : DataAnalysisResult) : Option ColumnStats :=
  analysis.columns.find? (fun col =>
    jsToLower col.name == "id" || jsEndsWith (jsToLower col.name) "_id")

/-- The body of the `forEach` row loop of
`AIAnalyzer.extractUserSpecificIssues`: scan the record's non-id fields
for missing markers and, when any are found, push one insight paired with
the record's id value.  The source accumulates `affectedColumns` and
`issues` with two pushes under one condition in a single key loop; that is
translated as a `filter` over the record's keys followed by a `map`. -/
def extractRowStep (idColumn : ColumnStats)
    (userIssues : List (Value × AIInsight)) (row : Row) : List (Value × AIInsight) :=
  let userId := rowGet row idColumn.name
  let affectedColumns := (row.map Prod.fst).filter (fun colName =>
    colName != idColumn.name && isRecordMissing (rowGet row colName))
  let issues := affectedColumns.map (fun colName => "Missing " ++ colName)
  if issues.length > 0 then
    userIssues ++ [(userId,
      { priority := if issues.length > 1 then Priority.high else Priority.medium
        issue := "ID " ++ valueToString userId ++ ": " ++ String.intercalate ", " issues
        suggestion := "Add/update the missing fields (" ++
          String.intercalate ", " affectedColumns ++ ") for user ID " ++
          valueToString userId
        sqlFix := none
        userId := some userId
        affectedColumns := some affectedColumns })]
  else userIssues

/-- `AIAnalyzer.extractUserSpecificIssues`: when an id column exists, run
`extractRowStep` over every preview record. -/
def extractUserSpecificIssues (analysis : DataAnalysisResult) :
    List (Value × AIInsight) :=
  match findIdColumn analysis with
  | none => []
  | some idColumn =>
    if analysis.dataPreview.isEmpty then []
    else analysis.dataPreview.foldl (extractRowStep idColumn) []

/-- The string JS interpolates for `analysis.completeness`, whose JS value
is a number or `NaN` (modelled by `none`). -/
def completenessToString (c : Option Int) : String :=
  match c with
  | some v => intRepr v
  | none => "NaN"

/-- The `< threshold` comparison on a possibly-`NaN` score: every JS `<`
comparison with `NaN` is false. -/
def scoreLt (c : Option Int) (threshold : Int) : Bool :=
  match c with
  | some v => v < threshold
  | none => false

/-- `AIAnalyzer.defaultInsights`: the deterministic rule-based fallback —
up to four recommendations driven by independent score thresholds. -/
def defaultInsights (analysis : DataAnalysisResult) : List AIInsight :=
  (if scoreLt analysis.completeness 95 then
    [{ priority := Priority.high
       issue := "Data completeness is " ++ completenessToString analysis.completeness ++
         "% with missing values detected"
       suggestion := "Remove rows with missing values or impute using mean/median/mode depending on the column type"
       sqlFix := some "-- Remove rows with NULL values\nDELETE FROM table_name WHERE column_name IS NULL;\n\n-- Or impute with a default value\nUPDATE table_name SET column_name = 'Unknown' WHERE column_name IS NULL;" }]
  else []) ++
  (if analysis.consistency < 85 then
    [{ priority := Priority.medium
       issue := "Data consistency issues detected - format variations found"
       suggestion := "Standardize data formats across columns. Use TRIM, LOWER/UPPER functions"
       sqlFix := some "-- Standardize text formatting\nUPDATE table_name SET column_name = LOWER(TRIM(column_name));" }]
  else []) ++
  (if analysis.accuracy < 80 then
    [{ priority := Priority.high
       issue := "Accuracy score is low - potential outliers or data entry errors detected"
       suggestion := "Review and correct data type mismatches and outliers"
       sqlFix := some "-- Find potential outliers in numeric columns\nSELECT column_name, COUNT(*) FROM table_name \nWHERE column_name > (SELECT AVG(column_name) + 2*STDDEV(column_name))\nGROUP BY column_name;" }]
  else []) ++
  (if analysis.validity < 90 then
    [{ priority := Priority.medium
       issue := "Some data values do not match expected types or formats"
       suggestion := "Validate data against expected schemas and data types"
       sqlFix := some "-- Check for invalid data types\nSELECT * FROM table_name WHERE column_name NOT LIKE '%valid_pattern%';" }]
  else [])

/-- `AIAnalyzer.generateInsights`, with the external text-generation
service modelled by its observable outcome: `svcResponse` is the result of
the OpenAI chat call (`Except.error` models a thrown network/auth error)
and `parseJsonArray` models the `/\[[\s\S]*\]/` regex match followed by
`JSON.parse` (`none` when no parseable JSON array is found — either the
regex fails or `JSON.parse` throws, which the enclosing `try/catch` also
routes to the fallback).  All paths prepend the per-record insights. -/
def generateInsights (analysis : DataAnalysisResult)
    (svcResponse : Except Unit String)
    (parseJsonArray : String → Option (List AIInsight)) : List AIInsight :=
  let userIssues := extractUserSpecificIssues analysis
  match svcResponse with
  | Except.error _ => userIssues.map Prod.snd ++ defaultInsights analysis
  | Except.ok responseText =>
    match parseJsonArray responseText with
    | some insights => userIssues.map Prod.snd ++ insights
    | none => userIssues.map Prod.snd ++ defaultInsights analysis

/-- The column-statistics list `analyzeData` computes for a non-empty
dataset (a named copy of the corresponding local of `analyzeData`, for
stating equations about its output). -/
def analyzeStats (data : List Row) : List ColumnStats :=
  ((data.headD []).map Prod.fst).map
    (fun colName => analyzeColumn colName (data.map (fun row => rowGet row colName)))

/-! ## Claim-side (specification-worded) definitions

These two definitions follow the wording of the claims being checked, not
the source; the refinement theorems below compare them with the
source-translated definitions. -/

/-- The candidate types of the specification's fixed priority order —
boolean, date, integer, float, text — each paired with its per-value
predicate, the order and predicates exactly as the spec lists them. -/
def typePriority : List (DataType × (Value → Bool)) :=
  [(DataType.boolean, isBooleanToken),
   (DataType.date, fun v => dateParses (valueToString v)),
   (DataType.integer, numberIsInteger),
   (DataType.float, fun v => !parseFloatNaN (valueToString v)),
   (DataType.text, fun _ => true)]

/-- Claim C6's reading of type inference: over the non-missing values,
return the first type in the priority order whose predicate holds for
every value (`text` when no values remain). -/
def firstMatchingType (values : List Value) : DataType :=
  let nonNull := values.filter (fun v => !isMissing v)
  if nonNull.isEmpty then DataType.text
  else
    match typePriority.find? (fun tp => nonNull.all tp.2) with
    | some tp => tp.1
    | none => DataType.text

/-- Claim C5's reading of per-record extraction, for one preview record:
if at least one non-id field holds a missing marker, exactly one
recommendation — priority High when at least two fields are missing, else
Medium, the record's id-column value attached and `affectedColumns`
listing the missing fields; otherwise none. -/
def specPerRecordRecs (idColumn : ColumnStats) (row : Row) :
    List (Value × AIInsight) :=
  let missingCols := (row.map Prod.fst).filter (fun colName =>
    colName != idColumn.name && isRecordMissing (rowGet row colName))
  if missingCols.isEmpty then []
  else
    let uid := rowGet row idColumn.name
    [(uid,
      { priority := if missingCols.length ≥ 2 then Priority.high else Priority.medium
        issue := "ID " ++ valueToString uid ++ ": " ++
          String.intercalate ", " (missingCols.map (fun colName => "Missing " ++ colName))
        suggestion := "Add/update the missing fields (" ++
          String.intercalate ", " missingCols ++ ") for user ID " ++ valueToString uid
        sqlFix := none
        userId := some uid
        affectedColumns := some missingCols })]

/-! ## Concrete inputs used by witnesses and counterexamples -/

/-- A 1-row dataset with an id column and an empty `email` field
(the record of the specification's Scenario C). -/
def aliceRows : List Row :=
  [[("id", Value.num 4), ("name", Value.str "Alice"),
    ("email", Value.str ""), ("age", Value.num 45)]]

/-- The analysis result of `aliceRows`, used by the C4 witness. -/
def c4Analysis : DataAnalysisResult :=
  match analyzeData aliceRows "users.csv" with
  | Except.ok r => r
  | Except.error _ => default

/-- The analysis result of `aliceRows`, used by the C5 witness
(Scenario C). -/
def c5Analysis : DataAnalysisResult :=
  match analyzeData aliceRows "users.csv" with
  | Except.ok r => r
  | Except.error _ => default

/-- The id column of `c5Analysis`. -/
def c5IdColumn : ColumnStats :=
  match findIdColumn c5Analysis with
  | some col => col
  | none => default

/-- The C2 counterexample dataset: 4 rows, 2 columns; column `a` has one
missing value in four (`nullPercentage = 25`), column `b` none, so the
mean missing rate is the exact half-integer 12.5. -/
def c2Rows : List Row :=
  [[("a", Value.str ""), ("b", Value.str "w1")],
   [("a", Value.str "x"), ("b", Value.str "w2")],
   [("a", Value.str "y"), ("b", Value.str "w3")],
   [("a", Value.str "z"), ("b", Value.str "w4")]]

/-- The C7 counterexample dataset: one column whose single value is a
whitespace-only string, which `Number` coerces to 0 (so the column is
typed integer) but which `parseFloat` rejects. -/
def c7Rows : List Row := [[("c", Value.str " ")]]

/-- A dataset in which every non-missing value has a `parseFloat`-parseable
string form, used by the C7 amended-claim witness. -/
def c7GoodRows : List Row :=
  [[("a", Value.num 1), ("b", Value.str "2.5")],
   [("a", Value.num 2), ("b", Value.str "")]]

/-- The column of the specification's Scenario A (used by the C8
witness): ten values, two of them missing. -/
def ageValues : List Value :=
  [Value.num 32, Value.num 28, Value.null, Value.num 45, Value.num 38,
   Value.num 29, Value.num 150, Value.num 34, Value.null, Value.num 26]

/-! ## Helper lemmas -/

theorem list_all_true {α : Type} (l : List α) : l.all (fun _ => true) = true := by
  simp

theorem jsRound_nonneg {q : Rat} (h : 0 ≤ q) : 0 ≤ jsRound q := by
  unfold jsRound
  exact Int.le_floor.mpr (by push_cast; linarith)

theorem jsRound_le_of_le {q : Rat} {n : Int} (h : q ≤ (n : Rat)) : jsRound q ≤ n := by
  unfold jsRound
  have : ⌊q + 1 / 2⌋ < n + 1 := Int.floor_lt.mpr (by push_cast; linarith)
  omega

theorem analyzeData_ok (data : List Row) (fileName : String) (h : data ≠ []) :
    ∃ r, analyzeData data fileName = Except.ok r := by
  unfold analyzeData
  rw [if_neg (by simpa using h)]
  exact ⟨_, rfl⟩

theorem nullPercentage_nonneg (columnName : String) (values : List Value) :
    0 ≤ (analyzeColumn columnName values).nullPercentage := by
  apply jsRound_nonneg
  positivity

theorem nullPercentage_le_100 (columnName : String) (values : List Value)
    (h : values ≠ []) : (analyzeColumn columnName values).nullPercentage ≤ 100 := by
  apply jsRound_le_of_le
  have hlen : 0 < (values.length : Rat) := by
    have := List.length_pos.mpr h
    exact_mod_cast this
  have hle : ((values.filter isMissing).length : Rat) ≤ (values.length : Rat) := by
    exact_mod_cast List.length_filter_le _ _
  rw [div_mul_eq_mul_div, div_le_iff₀ hlen]
  push_cast
  nlinarith

theorem calculateCompleteness_bounds (stats : List ColumnStats) (hne : stats ≠ [])
    (hb : ∀ c ∈ stats, 0 ≤ c.nullPercentage ∧ c.nullPercentage ≤ 100) :
    ∃ v, calculateCompleteness stats = some v ∧ 0 ≤ v ∧ v ≤ 100 := by
  unfold calculateCompleteness
  rw [if_neg (by simpa using hne)]
  set m : Rat :=
    (((stats.map ColumnStats.nullPercentage).sum : Int) : Rat) / (stats.length : Rat) with hm
  refine ⟨_, rfl, le_max_left _ _, ?_⟩
  have hlen : 0 < (stats.length : Rat) := by
    have := List.length_pos.mpr hne
    exact_mod_cast this
  have hsum_lb : (0 : Int) ≤ (stats.map ColumnStats.nullPercentage).sum :=
    List.sum_nonneg (by
      intro x hx
      obtain ⟨c, hc, rfl⟩ := List.mem_map.mp hx
      exact (hb c hc).1)
  have hmean_nonneg : 0 ≤ m := by
    rw [hm]
    apply div_nonneg _ (le_of_lt hlen)
    exact_mod_cast hsum_lb
  have h100 : jsRound (100 - m) ≤ 100 := by
    apply jsRound_le_of_le
    have hc : ((100 : Int) : Rat) = (100 : Rat) := by norm_num
    rw [hc]
    linarith
  simp only [max_le_iff]
  exact ⟨by norm_num, h100⟩

theorem calculateConsistency_bounds (stats : List ColumnStats) :
    0 ≤ calculateConsistency stats ∧ calculateConsistency stats ≤ 100 := by
  unfold calculateConsistency
  constructor
  · exact le_max_left _ _
  · simp only [max_le_iff]
    refine ⟨by norm_num, ?_⟩
    have h1 : (0 : Int) ≤ ((stats.filter (fun c => c.type == DataType.text)).length : Int) := by
      positivity
    have h2 : (0 : Int) ≤ ((stats.filter (fun c => c.issues.length > 0)).length : Int) := by
      positivity
    linarith

theorem calculateAccuracy_bounds (stats : List ColumnStats) :
    0 ≤ calculateAccuracy stats ∧ calculateAccuracy stats ≤ 100 := by
  unfold calculateAccuracy
  constructor
  · exact le_max_left _ _
  · simp only [max_le_iff]
    refine ⟨by norm_num, ?_⟩
    have h1 : (0 : Int) ≤
        (stats.map (fun col =>
          ((col.issues.filter (fun i => jsIncludes i "non-numeric")).length : Int))).sum := by
      apply List.sum_nonneg
      intro x hx
      obtain ⟨c, hc, rfl⟩ := List.mem_map.mp hx
      positivity
    linarith

theorem calculateValidity_bounds (stats : List ColumnStats) :
    0 ≤ calculateValidity stats ∧ calculateValidity stats ≤ 100 := by
  unfold calculateValidity
  constructor
  · exact le_max_left _ _
  · simp only [max_le_iff]
    refine ⟨by norm_num, ?_⟩
    have h1 : (0 : Int) ≤
        ((stats.filter (fun c => c.type == DataType.text && c.uniquePercentage < 80)).length : Int) := by
      positivity
    linarith

theorem firstSeenDedup_go (l : List Value) :
    ∀ acc : List Value, acc.Nodup →
      (l.foldl (fun acc v => if v ∈ acc then acc else acc ++ [v]) acc).Nodup ∧
      (l.foldl (fun acc v => if v ∈ acc then acc else acc ++ [v]) acc).toFinset =
        acc.toFinset ∪ l.toFinset := by
  induction l with
  | nil =>
    intro acc h
    simp [h]
  | cons v rest ih =>
    intro acc h
    rw [List.foldl_cons]
    by_cases hv : v ∈ acc
    · rw [if_pos hv]
      obtain ⟨h1, h2⟩ := ih acc h
      refine ⟨h1, ?_⟩
      rw [h2, List.toFinset_cons, Finset.union_insert,
        Finset.insert_eq_self.mpr (Finset.mem_union_left _ (List.mem_toFinset.mpr hv))]
    · rw [if_neg hv]
      have hnodup : (acc ++ [v]).Nodup := by
        simp [List.nodup_append, h, hv]
      obtain ⟨h1, h2⟩ := ih (acc ++ [v]) hnodup
      refine ⟨h1, ?_⟩
      rw [h2, List.toFinset_append, List.toFinset_cons]
      simp [Finset.union_assoc, ← Finset.insert_eq, Finset.union_insert]

theorem firstSeenDedup_length (l : List Value) :
    (firstSeenDedup l).length = l.toFinset.card := by
  obtain ⟨h1, h2⟩ := firstSeenDedup_go l [] (by simp)
  unfold firstSeenDedup
  rw [← List.toFinset_card_of_nodup h1, h2]
  simp

/-- The explicit shape of `analyzeData` on a non-empty dataset. -/
theorem analyzeData_eq (data : List Row) (fileName : String) (h : data ≠ []) :
    analyzeData data fileName =
      Except.ok
        { fileName := fileName
          totalRows := data.length
          totalColumns := ((data.headD []).map Prod.fst).length
          columns := analyzeStats data
          dataPreview := data.take 5
          completeness := calculateCompleteness (analyzeStats data)
          consistency := calculateConsistency (analyzeStats data)
          accuracy := calculateAccuracy (analyzeStats data)
          validity := calculateValidity (analyzeStats data)
          overallScore := (calculateCompleteness (analyzeStats data)).map
            (fun c => jsRound (((c + calculateConsistency (analyzeStats data) +
              calculateAccuracy (analyzeStats data) +
              calculateValidity (analyzeStats data) : Int) : Rat) / 4))
          summary := generateSummary data.length ((data.headD []).map Prod.fst).length
            (analyzeStats data) } := by
  unfold analyzeData analyzeStats
  rw [if_neg (by simpa using h)]

theorem analyzeStats_ne_nil (data : List Row) (hcols : (data.headD []).map Prod.fst ≠ []) :
    analyzeStats data ≠ [] := by
  unfold analyzeStats
  simpa using hcols

theorem analyzeStats_nullPercentage_bounds (data : List Row) (h : data ≠ []) :
    ∀ c ∈ analyzeStats data, 0 ≤ c.nullPercentage ∧ c.nullPercentage ≤ 100 := by
  intro c hc
  obtain ⟨colName, hcol, rfl⟩ := List.mem_map.mp hc
  have hvne : data.map (fun row => rowGet row colName) ≠ [] := by
    simpa using h
  exact ⟨nullPercentage_nonneg _ _, nullPercentage_le_100 _ _ hvne⟩

/-! ## Claim theorems -/

/-- C3.  `analyzeData` fails (with the `"No data found in file"` error,
the `EmptyDataset` condition) if and only if the row sequence is empty;
for any non-empty row sequence it returns a result, so no error and no
partial result ever coexist. -/
theorem c3_error_iff_empty (rows : List Row) (fileName : String) :
    (∃ e, analyzeData rows fileName = Except.error e) ↔ rows = [] := by
  constructor
  · intro he
    by_contra hne
    obtain ⟨r, hr⟩ := analyzeData_ok rows fileName hne
    obtain ⟨e, he⟩ := he
    rw [hr] at he
    exact Except.noConfusion he
  · intro h
    subst h
    exact ⟨"No data found in file", rfl⟩

/-- C9.  Type inference is idempotent: inferring from the non-missing
values of a column (those that are not null, undefined or the empty
string) gives the same type as inferring from the full column. -/
theorem c9_inference_idempotent (values : List Value) :
    inferDataType (values.filter (fun v => !isMissing v)) = inferDataType values := by
  unfold inferDataType
  rw [List.filter_filter]
  simp

/-- C4.  If the external text-generation call fails or its response
contains no parseable JSON array, `generateInsights` still returns a
recommendation list — the per-record recommendations concatenated before
the deterministic `defaultInsights` output — and propagates no error. -/
theorem c4_service_failure_returns_fallback (analysis : DataAnalysisResult)
    (svcResponse : Except Unit String)
    (parseJsonArray : String → Option (List AIInsight))
    (h : svcResponse = Except.error () ∨
      ∃ t, svcResponse = Except.ok t ∧ parseJsonArray t = none) :
    generateInsights analysis svcResponse parseJsonArray =
      (extractUserSpecificIssues analysis).map Prod.snd ++ defaultInsights analysis := by
  rcases h with h | ⟨t, ht, hp⟩
  · subst h
    rfl
  · subst ht
    simp only [generateInsights, hp]

/-- Witness for C4: a concrete analysis result (of a 1-row dataset whose
`email` field is empty), with the service call failing. -/
theorem c4_witness :
    generateInsights c4Analysis (Except.error ()) (fun _ => none) =
      (extractUserSpecificIssues c4Analysis).map Prod.snd ++ defaultInsights c4Analysis :=
  c4_service_failure_returns_fallback c4Analysis (Except.error ()) (fun _ => none)
    (Or.inl rfl)

/-- C10.  The `EmptyDataset` guard checks only the row count: a non-empty
row sequence whose first record has no keys is analyzed without error,
yielding zero columns and an empty column list, while `completeness` and
`overallScore` are the JS `NaN` (modelled by `none`) produced by the
unguarded division by the zero column count — not integers in [0,100]. -/
theorem c10_zero_columns_nan_scores (rows : List Row) (fileName : String)
    (h : rows ≠ []) (hkeys : (rows.headD []).map Prod.fst = []) :
    ∃ r, analyzeData rows fileName = Except.ok r ∧
      r.totalColumns = 0 ∧ r.columns = [] ∧
      r.completeness = none ∧ r.overallScore = none := by
  unfold analyzeData
  rw [if_neg (by simpa using h), hkeys]
  exact ⟨_, rfl, rfl, rfl, rfl, rfl⟩

/-- Witness for C10: a single empty record. -/
theorem c10_witness :
    ∃ r, analyzeData [([] : Row)] "empty.json" = Except.ok r ∧
      r.totalColumns = 0 ∧ r.columns = [] ∧
      r.completeness = none ∧ r.overallScore = none :=
  c10_zero_columns_nan_scores [([] : Row)] "empty.json" (by decide) (by decide)

/-- C6.  Type inference is exactly first-match over the fixed priority
order boolean, date, integer, float, text applied to the non-missing
values; a sequence with no non-missing values infers `text`; and a
sequence whose non-missing values are all boolean tokens (which includes
the numbers 0 and 1) infers `boolean`. -/
theorem c6_inference_first_match (values : List Value) :
    inferDataType values = firstMatchingType values ∧
    (values.filter (fun v => !isMissing v) = [] → inferDataType values = DataType.text) ∧
    (values.filter (fun v => !isMissing v) ≠ [] →
      (values.filter (fun v => !isMissing v)).all isBooleanToken = true →
      inferDataType values = DataType.boolean) := by
  refine ⟨?_, ?_, ?_⟩
  · unfold inferDataType firstMatchingType typePriority
    by_cases h0 : (values.filter (fun v => !isMissing v)).isEmpty <;>
      by_cases hb : (values.filter (fun v => !isMissing v)).all isBooleanToken <;>
      by_cases hd : (values.filter (fun v => !isMissing v)).all
        (fun v => dateParses (valueToString v)) <;>
      by_cases hi : (values.filter (fun v => !isMissing v)).all numberIsInteger <;>
      by_cases hf : (values.filter (fun v => !isMissing v)).all
        (fun v => !parseFloatNaN (valueToString v)) <;>
      simp [h0, hb, hd, hi, hf, List.find?, list_all_true]
  · intro h
    simp [inferDataType, h]
  · intro h0 hb
    have h0' : (values.filter (fun v => !isMissing v)).isEmpty = false := by
      simpa using h0
    simp [inferDataType, h0', hb]

theorem foldl_step_eq_flatMap {α β : Type} (step : List α → β → List α)
    (g : β → List α) (hstep : ∀ acc b, step acc b = acc ++ g b)
    (l : List β) (init : List α) :
    l.foldl step init = init ++ l.flatMap g := by
  induction l generalizing init with
  | nil => simp
  | cons b rest ih =>
    rw [List.foldl_cons, hstep, ih, List.flatMap_cons, List.append_assoc]

theorem extractRowStep_eq_spec (idColumn : ColumnStats)
    (acc : List (Value × AIInsight)) (row : Row) :
    extractRowStep idColumn acc row = acc ++ specPerRecordRecs idColumn row := by
  unfold extractRowStep specPerRecordRecs
  set mc := (row.map Prod.fst).filter (fun colName =>
    colName != idColumn.name && isRecordMissing (rowGet row colName)) with hmc
  simp only [List.length_map]
  by_cases hm : mc = []
  · simp [hm]
  · have hlen : 0 < mc.length := List.length_pos.mpr hm
    have hieq : (mc.length > 1) = (mc.length ≥ 2) := propext ⟨fun h => h, fun h => h⟩
    rw [if_pos hlen]
    simp only [hieq]
    simp [List.isEmpty_iff, hm]

/-- C5.  Per-record extraction: with no id column (one named, after
lowercasing, `id` or ending in `_id`) there are no per-record
recommendations; with one, the output is exactly, record by preview
record, the claim's rule — one recommendation per record having a missing
non-id field (priority High for at least two missing fields, else Medium,
the id value attached, `affectedColumns` listing the missing fields), and
none for records without missing fields. -/
theorem c5_per_record_extraction (analysis : DataAnalysisResult) :
    (findIdColumn analysis = none → extractUserSpecificIssues analysis = []) ∧
    ∀ idColumn, findIdColumn analysis = some idColumn →
      extractUserSpecificIssues analysis =
        analysis.dataPreview.flatMap (specPerRecordRecs idColumn) := by
  constructor
  · intro h
    unfold extractUserSpecificIssues
    simp only [h]
  · intro idColumn h
    unfold extractUserSpecificIssues
    simp only [h]
    by_cases hp : analysis.dataPreview.isEmpty
    · rw [if_pos hp, List.isEmpty_iff.mp hp]
      rfl
    · rw [if_neg hp]
      simpa using
        foldl_step_eq_flatMap (extractRowStep idColumn) (specPerRecordRecs idColumn)
          (extractRowStep_eq_spec idColumn) analysis.dataPreview []

/-- Witness for C5: Scenario C — the `aliceRows` analysis has an `id`
column, and extraction emits exactly one Medium recommendation for record
id 4 naming the empty `email` field. -/
theorem c5_witness :
    findIdColumn c5Analysis = some c5IdColumn ∧
    extractUserSpecificIssues c5Analysis =
      c5Analysis.dataPreview.flatMap (specPerRecordRecs c5IdColumn) ∧
    extractUserSpecificIssues c5Analysis =
      [(Value.num 4,
        { priority := Priority.medium
          issue := "ID 4: Missing email"
          suggestion := "Add/update the missing fields (email) for user ID 4"
          sqlFix := none
          userId := some (Value.num 4)
          affectedColumns := some ["email"] })] :=
  ⟨by with_unfolding_all decide,
   (c5_per_record_extraction c5Analysis).2 c5IdColumn (by with_unfolding_all decide),
   by with_unfolding_all decide⟩

/-- C8.  For a profiling run over a non-empty value sequence:
`nullPercentage` (the missing rate) is `round(100 * missingCount /
totalCount)` over the full count including missing values, `uniqueCount`
is the number of distinct non-missing values under value equality, and
`uniquePercentage` is `round(100 * uniqueCount / totalCount)` over the
same denominator. -/
theorem c8_column_rates (columnName : String) (values : List Value)
    (h : values ≠ []) :
    (analyzeColumn columnName values).totalRows = values.length ∧
    (analyzeColumn columnName values).nullCount = (values.filter isMissing).length ∧
    (analyzeColumn columnName values).nullPercentage =
      jsRound (100 * ((values.filter isMissing).length : Rat) / (values.length : Rat)) ∧
    (analyzeColumn columnName values).uniqueCount =
      (values.filter (fun v => !isMissing v)).toFinset.card ∧
    (analyzeColumn columnName values).uniquePercentage =
      jsRound (100 * ((values.filter (fun v => !isMissing v)).toFinset.card : Rat) /
        (values.length : Rat)) := by
  refine ⟨rfl, rfl, ?_, ?_, ?_⟩
  · show jsRound (((values.filter isMissing).length : Rat) / (values.length : Rat) * 100) = _
    congr 1
    ring
  · exact firstSeenDedup_length _
  · show jsRound (((firstSeenDedup (values.filter (fun v => !isMissing v))).length : Rat) /
      (values.length : Rat) * 100) = _
    rw [firstSeenDedup_length]
    congr 1
    ring

/-- Witness for C8: the specification's Scenario A column — ten values,
two missing, eight distinct — checking the concrete statistics and the
rate equations. -/
theorem c8_witness :
    ((analyzeColumn "Age" ageValues).nullCount = 2 ∧
     (analyzeColumn "Age" ageValues).nullPercentage = 20 ∧
     (analyzeColumn "Age" ageValues).uniqueCount = 8 ∧
     (analyzeColumn "Age" ageValues).type = DataType.integer) ∧
    (analyzeColumn "Age" ageValues).nullPercentage =
      jsRound (100 * ((ageValues.filter isMissing).length : Rat) / (ageValues.length : Rat)) ∧
    (analyzeColumn "Age" ageValues).uniqueCount =
      (ageValues.filter (fun v => !isMissing v)).toFinset.card ∧
    (analyzeColumn "Age" ageValues).uniquePercentage =
      jsRound (100 * ((ageValues.filter (fun v => !isMissing v)).toFinset.card : Rat) /
        (ageValues.length : Rat)) := by
  have h := c8_column_rates "Age" ageValues (by decide)
  exact ⟨by with_unfolding_all decide, h.2.2.1, h.2.2.2.1, h.2.2.2.2⟩

/-- C1.  For a dataset with at least one row and at least one column, the
analysis succeeds, all four sub-scores are integers in [0,100]
(`completeness` is `some c` — finite, not `NaN`), and `overallScore`
rounds the arithmetic mean of the four. -/
theorem c1_scores_bounded_overall_mean (rows : List Row) (fileName : String)
    (h : rows ≠ []) (hcols : (rows.headD []).map Prod.fst ≠ []) :
    ∃ r c, analyzeData rows fileName = Except.ok r ∧
      r.completeness = some c ∧ 0 ≤ c ∧ c ≤ 100 ∧
      0 ≤ r.consistency ∧ r.consistency ≤ 100 ∧
      0 ≤ r.accuracy ∧ r.accuracy ≤ 100 ∧
      0 ≤ r.validity ∧ r.validity ≤ 100 ∧
      r.overallScore = some (jsRound
        (((c + r.consistency + r.accuracy + r.validity : Int) : Rat) / 4)) := by
  obtain ⟨v, hv, hv0, hv100⟩ :=
    calculateCompleteness_bounds (analyzeStats rows) (analyzeStats_ne_nil rows hcols)
      (analyzeStats_nullPercentage_bounds rows h)
  refine ⟨_, v, analyzeData_eq rows fileName h, hv, hv0, hv100,
    (calculateConsistency_bounds _).1, (calculateConsistency_bounds _).2,
    (calculateAccuracy_bounds _).1, (calculateAccuracy_bounds _).2,
    (calculateValidity_bounds _).1, (calculateValidity_bounds _).2, ?_⟩
  show (calculateCompleteness (analyzeStats rows)).map _ = _
  rw [hv]
  rfl

/-- Witness for C1: the four-column `aliceRows` dataset, where the scores
are (75, 85, 100, 90) and the overall score is 88 = round(350/4). -/
theorem c1_witness :
    (∃ r c, analyzeData aliceRows "users.csv" = Except.ok r ∧
      r.completeness = some c ∧ 0 ≤ c ∧ c ≤ 100 ∧
      0 ≤ r.consistency ∧ r.consistency ≤ 100 ∧
      0 ≤ r.accuracy ∧ r.accuracy ≤ 100 ∧
      0 ≤ r.validity ∧ r.validity ≤ 100 ∧
      r.overallScore = some (jsRound
        (((c + r.consistency + r.accuracy + r.validity : Int) : Rat) / 4))) ∧
    ((analyzeData aliceRows "users.csv").toOption.map
      (fun r => (r.completeness, r.consistency, r.accuracy, r.validity, r.overallScore)) =
      some (some 75, 85, 100, 90, some 88)) :=
  ⟨c1_scores_bounded_overall_mean aliceRows "users.csv" (by decide) (by decide),
   by with_unfolding_all decide⟩

/-- C2 counterexample: on `c2Rows` (column missing rates 25 and 0, mean
12.5) the code rounds after subtracting — `round(100 − 12.5) = 88` —
while the claim's formula rounds first — `100 − round(12.5) = 87`, also
after clamping to [0,100]; 88 ≠ 87 refutes the claim as stated. -/
theorem c2_counterexample :
    ((analyzeData c2Rows "c2.csv").toOption.map (fun r => r.completeness) =
      some (some 88)) ∧
    ((analyzeData c2Rows "c2.csv").toOption.map (fun r =>
      max 0 (min 100 (100 - jsRound
        ((((r.columns.map ColumnStats.nullPercentage).sum : Int) : Rat) /
          (r.columns.length : Rat))))) = some 87) ∧
    some (88 : Int) ≠ some (87 : Int) :=
  ⟨by with_unfolding_all decide, by with_unfolding_all decide, by decide⟩

/-- C2 as amended.  For a dataset with at least one row and one column,
`completeness` equals `max(0, round(100 − mean(missingRate)))` — the mean
is subtracted from 100 first and the result then rounded (they differ
when the mean is an exact half-integer) — and is an integer in
[0,100]. -/
theorem c2_completeness_subtract_then_round (rows : List Row) (fileName : String)
    (h : rows ≠ []) (hcols : (rows.headD []).map Prod.fst ≠ []) :
    ∃ r, analyzeData rows fileName = Except.ok r ∧
      r.completeness = some (max 0 (jsRound (100 -
        (((r.columns.map ColumnStats.nullPercentage).sum : Int) : Rat) /
          (r.columns.length : Rat)))) ∧
      ∃ c, r.completeness = some c ∧ 0 ≤ c ∧ c ≤ 100 := by
  refine ⟨_, analyzeData_eq rows fileName h, ?_, ?_⟩
  · show calculateCompleteness (analyzeStats rows) =
      some (max 0 (jsRound (100 -
        ((((analyzeStats rows).map ColumnStats.nullPercentage).sum : Int) : Rat) /
          ((analyzeStats rows).length : Rat))))
    unfold calculateCompleteness
    rw [if_neg (by simpa using analyzeStats_ne_nil rows hcols)]
  · obtain ⟨v, hv, hv0, hv100⟩ :=
      calculateCompleteness_bounds (analyzeStats rows) (analyzeStats_ne_nil rows hcols)
        (analyzeStats_nullPercentage_bounds rows h)
    exact ⟨v, hv, hv0, hv100⟩

/-- Witness for the amended C2, at the `c2Rows` dataset. -/
theorem c2_witness :
    ∃ r, analyzeData c2Rows "c2.csv" = Except.ok r ∧
      r.completeness = some (max 0 (jsRound (100 -
        (((r.columns.map ColumnStats.nullPercentage).sum : Int) : Rat) /
          (r.columns.length : Rat)))) ∧
      ∃ c, r.completeness = some c ∧ 0 ≤ c ∧ c ≤ 100 :=
  c2_completeness_subtract_then_round c2Rows "c2.csv" (by decide) (by decide)

theorem digitChar_ne_dash (d : Nat) : digitChar d ≠ '-' := by
  unfold digitChar
  split_ifs <;> decide

theorem dash_not_mem_natReprAux (fuel n : Nat) : '-' ∉ natReprAux fuel n := by
  induction fuel generalizing n with
  | zero => simp [natReprAux]
  | succ fuel ih =>
    unfold natReprAux
    by_cases h : n < 10
    · simp only [h, if_true, List.mem_singleton]
      exact fun he => digitChar_ne_dash n he.symm
    · simp only [h, if_false, List.mem_append, List.mem_singleton]
      rintro (hm | hm)
      · exact ih (n / 10) hm
      · exact digitChar_ne_dash (n % 10) hm.symm

theorem dash_not_mem_natRepr (n : Nat) : '-' ∉ (natRepr n).data :=
  dash_not_mem_natReprAux _ _

theorem dash_not_mem_intRepr (i : Int) (h : 0 ≤ i) : '-' ∉ (intRepr i).data := by
  unfold intRepr
  rw [if_neg (by omega)]
  exact dash_not_mem_natRepr _

theorem jsIncludes_nonNumeric_false (s : String) (h : '-' ∉ s.data) :
    jsIncludes s "non-numeric" = false := by
  unfold jsIncludes
  rw [decide_eq_false_iff_not]
  intro hinf
  exact h (hinf.subset (by decide))

theorem dash_not_mem_missing_str (nc : Nat) (pct : Int) (hp : 0 ≤ pct) :
    '-' ∉ (natRepr nc ++ " missing values (" ++ intRepr pct ++ "%)").data := by
  intro hmem
  rw [String.data_append, String.data_append, String.data_append] at hmem
  simp only [List.mem_append] at hmem
  rcases hmem with ((hm | hm) | hm) | hm
  · exact dash_not_mem_natRepr nc hm
  · revert hm
    decide
  · exact dash_not_mem_intRepr pct hp hm
  · revert hm
    decide

theorem dash_not_mem_dup_str (dc : Int) (hp : 0 ≤ dc) :
    '-' ∉ (intRepr dc ++ " duplicate values").data := by
  intro hmem
  rw [String.data_append] at hmem
  simp only [List.mem_append] at hmem
  rcases hmem with hm | hm
  · exact dash_not_mem_intRepr dc hp hm
  · revert hm
    decide

theorem mem_ite_singleton {α : Type} {c : Prop} [Decidable c] {i a : α}
    (h : i ∈ (if c then [a] else [])) : c ∧ i = a := by
  split_ifs at h with hc
  · exact ⟨hc, List.mem_singleton.mp h⟩
  · exact absurd h (List.not_mem_nil i)

theorem rowGet_cases (row : Row) (k : String) :
    rowGet row k = Value.undef ∨ ∃ kv ∈ row, rowGet row k = kv.2 := by
  unfold rowGet
  cases h : row.find? (fun kv => kv.1 == k) with
  | none => exact Or.inl rfl
  | some kv => exact Or.inr ⟨kv, List.mem_of_find?_eq_some h, rfl⟩

theorem detectIssues_no_nonNumeric (columnName : String) (values : List Value)
    (dataType : DataType)
    (hvals : ∀ v ∈ values, isMissing v = false →
      parseFloatNaN (valueToString v) = false) :
    ∀ i ∈ detectIssues columnName values dataType,
      jsIncludes i "non-numeric" = false := by
  intro i hi
  have htm : values.filter (fun v => !isMissing v && parseFloatNaN (valueToString v)) = [] := by
    rw [List.filter_eq_nil_iff]
    intro v hv
    by_cases hmv : isMissing v
    · simp [hmv]
    · simp [hmv, hvals v hv (by simpa using hmv)]
  unfold detectIssues at hi
  simp only [htm, List.length_nil, gt_iff_lt, lt_self_iff_false, if_false,
    ite_self, List.append_nil, List.nil_append] at hi
  rcases List.mem_append.mp hi with hm | hd
  · obtain ⟨_, rfl⟩ := mem_ite_singleton hm
    exact jsIncludes_nonNumeric_false _
      (dash_not_mem_missing_str _ _ (jsRound_nonneg (by positivity)))
  · obtain ⟨hdc, rfl⟩ := mem_ite_singleton hd
    exact jsIncludes_nonNumeric_false _ (dash_not_mem_dup_str _ (le_of_lt hdc))

/-- C7 counterexample: the dataset `c7Rows`, whose only value is the
whitespace-only string `" "`, is typed integer (`Number(" ") = 0`), but
`parseFloat(" ")` is `NaN`, so under the default pipeline the column DOES
get a `"1 non-numeric values found"` issue and `accuracy` is 90, not
100 — refuting the claim that the check is inert by default. -/
theorem c7_counterexample :
    ((analyzeData c7Rows "c7.csv").toOption.map
      (fun r => (r.accuracy, r.columns.map ColumnStats.issues,
        r.columns.map ColumnStats.type)) =
      some (90, [["1 non-numeric values found"]], [DataType.integer])) ∧
    (90 : Int) ≠ 100 :=
  ⟨by with_unfolding_all decide, by decide⟩

/-- C7 as amended.  For every dataset in which each non-missing value has
a `parseFloat`-parseable string form, the count of values failing numeric
conversion is 0 in every column — whatever its inferred type — so no
column's issue list contains a "non-numeric values found" entry and the
accuracy score is 100.  (The whitespace-only counterexample shows the
unrestricted claim fails: `Number` accepts whitespace-only strings that
`parseFloat` rejects.) -/
theorem c7_accuracy_100_when_parseable (data : List Row) (fileName : String)
    (hvals : ∀ row ∈ data, ∀ kv ∈ row, isMissing kv.2 = false →
      parseFloatNaN (valueToString kv.2) = false) :
    ∀ r, analyzeData data fileName = Except.ok r →
      (∀ col ∈ r.columns, ∀ i ∈ col.issues, jsIncludes i "non-numeric" = false) ∧
      r.accuracy = 100 := by
  intro r hr
  have hne : data ≠ [] := by
    intro hd
    subst hd
    simp [analyzeData] at hr
  rw [analyzeData_eq data fileName hne, Except.ok.injEq] at hr
  subst hr
  have hcolvals : ∀ colName : String, ∀ v ∈ data.map (fun row => rowGet row colName),
      isMissing v = false → parseFloatNaN (valueToString v) = false := by
    intro colName v hv hm
    obtain ⟨row, hrow, rfl⟩ := List.mem_map.mp hv
    rcases rowGet_cases row colName with hu | ⟨kv, hkv, he⟩
    · rw [hu] at hm
      exact absurd hm (by simp [isMissing])
    · rw [he] at hm ⊢
      exact hvals row hrow kv hkv hm
  have hnoissue : ∀ col ∈ analyzeStats data, ∀ i ∈ col.issues,
      jsIncludes i "non-numeric" = false := by
    intro col hc
    obtain ⟨colName, hcol, rfl⟩ := List.mem_map.mp hc
    exact detectIssues_no_nonNumeric colName _ _ (hcolvals colName)
  refine ⟨hnoissue, ?_⟩
  show calculateAccuracy (analyzeStats data) = 100
  unfold calculateAccuracy
  have hz : ((analyzeStats data).map (fun col =>
      ((col.issues.filter (fun i => jsIncludes i "non-numeric")).length : Int))).sum = 0 := by
    apply List.sum_eq_zero
    intro x hx
    obtain ⟨col, hc, rfl⟩ := List.mem_map.mp hx
    have : col.issues.filter (fun i => jsIncludes i "non-numeric") = [] := by
      rw [List.filter_eq_nil_iff]
      intro i hi
      simp [hnoissue col hc i hi]
    rw [this]
    rfl
  rw [hz]
  rfl

/-- Witness for the amended C7: on `c7GoodRows` (plain numbers, a decimal
string, one empty-string missing value) the accuracy is 100 and no
non-numeric issue fires. -/
theorem c7_witness :
    (analyzeData c7GoodRows "good.csv").toOption.map DataAnalysisResult.accuracy =
      some 100 := by
  obtain ⟨r, hr⟩ := analyzeData_ok c7GoodRows "good.csv" (by decide)
  have h100 := (c7_accuracy_100_when_parseable c7GoodRows "good.csv"
    (by with_unfolding_all decide) r hr).2
  rw [hr]
  simp [Except.toOption, h100]

/-- Witness for C6: the numbers-only 0/1 column infers `boolean` (also
matching the first-match reading), and an all-missing column infers
`text`. -/
theorem c6_witness :
    inferDataType [Value.num 0, Value.num 1] =
      firstMatchingType [Value.num 0, Value.num 1] ∧
    inferDataType [Value.num 0, Value.num 1] = DataType.boolean ∧
    inferDataType [Value.null, Value.str ""] = DataType.text :=
  ⟨(c6_inference_first_match [Value.num 0, Value.num 1]).1,
   (c6_inference_first_match [Value.num 0, Value.num 1]).2.2
     (by with_unfolding_all decide) (by with_unfolding_all decide),
   (c6_inference_first_match [Value.null, Value.str ""]).2.1 (by decide)⟩

end DataAnalysis
